import Mathlib

/-!
Shallow embedding of the data layer of the trading-checklist app,
`src/lib/stock-api.ts`.

Conventions of the embedding:
* JavaScript numbers are modelled as rationals (`ℚ`).
* Every call to `Math.random()` is modelled by an explicit stream
  `rand : ℕ → ℚ` of draws, indexed in the evaluation order of the calls.
* `Date.now()` is modelled by an explicit parameter `now : ℚ`.
* The transcendental library functions `Math.log` and `Math.sqrt`, and the
  float formatter `Number.prototype.toFixed`, are modelled as function
  parameters, since their float behaviour is external to the module.
* A `fetch` of the server-side proxy route is modelled by an `ApiResponse`
  value describing the outcome of the request.
* The TS field `open` of `StockData` is a Lean keyword and is embedded as
  `openPrice`; the fields `creditRatio`, `peRatio` and `pegRatio` are
  embedded as `creditRatioVal`, `peRatioVal` and `pegRatioVal`.
-/

/-- JavaScript `String.prototype.toUpperCase`, modelled as character-wise
uppercasing of the string's characters. -/
def jsToUpper (s : String) : String := ⟨s.data.map Char.toUpper⟩

/-- The `StockData` interface of stock-api.ts. `marketCap` and `vwap` are
optional in the source (`marketCap?`, `vwap?`). -/
structure StockData where
  symbol : String
  price : ℚ
  change : ℚ
  changePercent : ℚ
  volume : ℚ
  marketCap : Option ℚ
  high : ℚ
  low : ℚ
  openPrice : ℚ
  previousClose : ℚ
  vwap : Option ℚ
  timestamp : ℚ
deriving DecidableEq

/-- The `TechnicalIndicators` interface of stock-api.ts. -/
structure TechnicalIndicators where
  rsi : ℚ
  ema9 : ℚ
  ema20 : ℚ
  adx : ℚ
  vwap : ℚ
  sma50 : ℚ
  sma200 : ℚ
deriving DecidableEq

/-- `generateFallbackStockData` (stock-api.ts): the randomly generated mock
quote used whenever the proxied request fails. `rand n` is the value of the
n-th `Math.random()` call of the function body, in evaluation order:
basePrice, changePercent, volume, high, low, open, marketCap. -/
def generateFallbackStockData (symbol : String) (rand : ℕ → ℚ) (now : ℚ) : StockData :=
  let basePrice := 150 + rand 0 * 300
  let changePercent := (rand 1 - 0.5) * 10
  let change := basePrice * (changePercent / 100)
  let previousClose := basePrice - change
  { symbol := jsToUpper symbol
    price := basePrice
    change := change
    changePercent := changePercent
    volume := ((⌊rand 2 * 10000000⌋ : ℤ) : ℚ) + 1000000
    marketCap := some (((⌊rand 6 * 1000000000000⌋ : ℤ) : ℚ) + 100000000000)
    high := basePrice + rand 3 * 10
    low := basePrice - rand 4 * 10
    openPrice := previousClose + (rand 5 - 0.5) * 5
    previousClose := previousClose
    vwap := none
    timestamp := now }

/-- Outcome of the proxied GET request to /api/stock/SYMBOL as seen by the
client: the fetch itself may reject, the response may carry a non-ok HTTP
status, the body may fail to parse as JSON, or it parses to a payload that
either carries an `error` field or the stock data. -/
inductive ApiResponse where
  | networkError (msg : String)
  | httpError (status : ℕ) (body : String)
  | parseError
  | payload (error : Option String) (data : StockData)
deriving DecidableEq

/-- The try-block of `fetchStockData`: throws on a non-ok status
(`API request failed: status - text`), on an unparseable body, and on a
payload whose `error` field is set; otherwise returns the payload. -/
def fetchStockDataAttempt : ApiResponse → Except String StockData
  | .networkError msg => .error msg
  | .httpError status body =>
      .error ("API request failed: " ++ toString status ++ " - " ++ body)
  | .parseError => .error "invalid JSON"
  | .payload (some e) _ => .error e
  | .payload none d => .ok d

/-- `fetchStockData` (stock-api.ts): the catch-block turns every failure of
the try-block into the randomly generated fallback quote, so the promise
always resolves. -/
def fetchStockData (symbol : String) (resp : ApiResponse) (rand : ℕ → ℚ)
    (now : ℚ) : StockData :=
  match fetchStockDataAttempt resp with
  | .ok d => d
  | .error _ => generateFallbackStockData symbol rand now

/-- `fetchTechnicalIndicators` (stock-api.ts): it fetches the stock data,
keeps only its `price`, and scales that price by fresh uniform draws — no
OHLCV history is consulted. `rand n` is the n-th `Math.random()` call of the
body, in evaluation order: vwap, ema9, ema20, sma50, sma200, rsi, adx. -/
def fetchTechnicalIndicators (price : ℚ) (rand : ℕ → ℚ) : TechnicalIndicators :=
  let vwap := price * (0.995 + rand 0 * 0.01)
  let ema9 := price * (0.99 + rand 1 * 0.02)
  let ema20 := price * (0.985 + rand 2 * 0.03)
  let sma50 := price * (0.97 + rand 3 * 0.06)
  let sma200 := price * (0.9 + rand 4 * 0.2)
  { rsi := 45 + rand 5 * 20
    ema9 := ema9
    ema20 := ema20
    adx := 15 + rand 6 * 20
    vwap := vwap
    sma50 := sma50
    sma200 := sma200 }

/-- C1: `fetchStockData` never rejects: whenever the proxied request fails in
any way (the try-block throws), it resolves with the randomly generated mock
`StockData`, whose `symbol` field is the input symbol uppercased; only when
the request fully succeeds does it return the proxied payload. -/
theorem fetchStockData_fallback_on_failure (symbol : String) (resp : ApiResponse)
    (rand : ℕ → ℚ) (now : ℚ) :
    ((∃ msg, fetchStockDataAttempt resp = .error msg) →
      fetchStockData symbol resp rand now = generateFallbackStockData symbol rand now ∧
      (fetchStockData symbol resp rand now).symbol = jsToUpper symbol) ∧
    (∀ d, fetchStockDataAttempt resp = .ok d →
      fetchStockData symbol resp rand now = d) := by
  constructor
  · rintro ⟨msg, hmsg⟩
    unfold fetchStockData
    rw [hmsg]
    exact ⟨rfl, rfl⟩
  · intro d hd
    unfold fetchStockData
    rw [hd]

/-- C1 witness: a concrete failing request (HTTP 500) resolves with the mock
quote for the uppercased symbol. -/
theorem fetchStockData_fallback_on_failure_witness :
    fetchStockData "aapl" (.httpError 500 "oops") (fun _ => 0) 0 =
      generateFallbackStockData "aapl" (fun _ => 0) 0 ∧
    (fetchStockData "aapl" (.httpError 500 "oops") (fun _ => 0) 0).symbol = "AAPL" := by
  have h := (fetchStockData_fallback_on_failure "aapl" (.httpError 500 "oops")
    (fun _ => 0) 0).1 ⟨"API request failed: 500 - oops", rfl⟩
  refine ⟨h.1, ?_⟩
  rw [h.2]
  decide

/-- C2 counterexample: for a fixed underlying stock data (price 100), two
calls of `fetchTechnicalIndicators` with different `Math.random()` draws
return different RSI values, so the result is not a deterministic function of
the fetched price data alone. -/
theorem fetchTechnicalIndicators_not_deterministic :
    fetchTechnicalIndicators 100 (fun _ => 0) ≠
      fetchTechnicalIndicators 100 (fun _ => 1/2) := by
  intro h
  have h5 := congrArg TechnicalIndicators.rsi h
  simp only [fetchTechnicalIndicators] at h5
  norm_num at h5

/-- C2 amended: `fetchTechnicalIndicators` does not compute its indicators
from OHLCV arrays; it is a deterministic function of the fetched price
together with the seven `Math.random()` draws: two calls with equal price and
equal draws return equal indicator records. -/
theorem fetchTechnicalIndicators_deterministic_in_price_and_draws
    (p₁ p₂ : ℚ) (r₁ r₂ : ℕ → ℚ) (hp : p₁ = p₂) (hr : ∀ n, r₁ n = r₂ n) :
    fetchTechnicalIndicators p₁ r₁ = fetchTechnicalIndicators p₂ r₂ := by
  subst hp
  rw [funext hr]

/-- C2 witness: the amended determinism at a concrete price and draw stream. -/
theorem fetchTechnicalIndicators_deterministic_witness :
    fetchTechnicalIndicators 100 (fun _ => 0) =
      fetchTechnicalIndicators 100 (fun _ => 0) :=
  fetchTechnicalIndicators_deterministic_in_price_and_draws 100 100
    (fun _ => 0) (fun _ => 0) rfl (fun _ => rfl)

/-! ### RSI (calculateRSI, stock-api.ts) -/

/-- The loop of `calculateRSI`: after `k` iterations (loop counter `i` running
from 1 to `k`) it has accumulated `(gains, losses)`, where iteration `i` looks
at the change `prices[len-i] - prices[len-i-1]`. -/
def rsiLoop (prices : List ℚ) : ℕ → ℚ × ℚ
  | 0 => (0, 0)
  | i + 1 =>
      let acc := rsiLoop prices i
      let change := prices.getD (prices.length - (i + 1)) 0 -
        prices.getD (prices.length - (i + 1) - 1) 0
      if 0 < change then (acc.1 + change, acc.2) else (acc.1, acc.2 - change)

/-- `calculateRSI` (stock-api.ts): short price histories yield the neutral
value 50; otherwise Wilder's simplified RSI over the last `period` changes. -/
def calculateRSI (prices : List ℚ) (period : ℕ) : ℚ :=
  if prices.length < period + 1 then 50
  else
    let gains := (rsiLoop prices period).1
    let losses := (rsiLoop prices period).2
    let avgGain := gains / (period : ℚ)
    let avgLoss := losses / (period : ℚ)
    let rs := avgGain / avgLoss
    100 - 100 / (1 + rs)

/-- The list of consecutive price changes `p[i+1] - p[i]`. -/
def priceChanges (prices : List ℚ) : List ℚ :=
  List.zipWith (fun a b => b - a) prices prices.tail

/-- The most recent `period` consecutive price changes. -/
def recentChanges (prices : List ℚ) (period : ℕ) : List ℚ :=
  (priceChanges prices).drop ((priceChanges prices).length - period)

/-- Sum of the positive changes among the most recent `period` changes. -/
def gainSum (prices : List ℚ) (period : ℕ) : ℚ :=
  ((recentChanges prices period).map (fun c => if 0 < c then c else 0)).sum

/-- Sum of the absolute values of the non-positive changes among the most
recent `period` changes. -/
def lossSum (prices : List ℚ) (period : ℕ) : ℚ :=
  ((recentChanges prices period).map (fun c => if 0 < c then 0 else -c)).sum

lemma length_priceChanges (prices : List ℚ) :
    (priceChanges prices).length = prices.length - 1 := by
  simp only [priceChanges, List.length_zipWith, List.length_tail]
  omega

lemma priceChanges_getD (prices : List ℚ) (j : ℕ)
    (hj : j < (priceChanges prices).length) :
    (priceChanges prices).getD j 0 = prices.getD (j + 1) 0 - prices.getD j 0 := by
  have hlen := length_priceChanges prices
  have h1 : j < prices.length := by omega
  have h2 : j + 1 < prices.length := by omega
  have h3 : j < prices.tail.length := by
    rw [List.length_tail]; omega
  rw [List.getD_eq_getElem _ _ hj, List.getD_eq_getElem _ _ h2,
    List.getD_eq_getElem _ _ h1]
  simp only [priceChanges, List.getElem_zipWith]
  rw [List.getElem_tail]

/-- The RSI loop accumulates exactly the gains and losses of the most recent
`k` consecutive changes. -/
lemma rsiLoop_eq_sums (prices : List ℚ) :
    ∀ k, k ≤ (priceChanges prices).length →
      rsiLoop prices k = (gainSum prices k, lossSum prices k) := by
  intro k
  induction k with
  | zero =>
      intro _
      simp [rsiLoop, gainSum, lossSum, recentChanges, List.drop_length]
  | succ i ih =>
      intro h
      have hlen := length_priceChanges prices
      have hacc := ih (Nat.le_of_succ_le h)
      set n := (priceChanges prices).length with hn
      have hlt : n - (i + 1) < n := by omega
      have hstep : n - (i + 1) + 1 = n - i := by omega
      have hdrop : (priceChanges prices).drop (n - (i + 1)) =
          (priceChanges prices).getD (n - (i + 1)) 0 ::
            (priceChanges prices).drop (n - i) := by
        rw [List.getD_eq_getElem _ _ hlt, List.drop_eq_getElem_cons hlt, hstep]
      have e1 : n - (i + 1) + 1 = prices.length - (i + 1) := by omega
      have e2 : n - (i + 1) = prices.length - (i + 1) - 1 := by omega
      have hchg : (priceChanges prices).getD (n - (i + 1)) 0 =
          prices.getD (prices.length - (i + 1)) 0 -
            prices.getD (prices.length - (i + 1) - 1) 0 := by
        rw [priceChanges_getD prices _ hlt, e1, ← e2]
      simp only [rsiLoop, hacc]
      simp only [gainSum, lossSum, recentChanges, ← hn, hdrop, List.map_cons,
        List.sum_cons]
      rw [hchg]
      by_cases hc : (0:ℚ) < prices.getD (prices.length - (i + 1)) 0 -
          prices.getD (prices.length - (i + 1) - 1) 0
      · simp only [if_pos hc]
        rw [Prod.mk.injEq]
        exact ⟨by ring, by ring⟩
      · simp only [if_neg hc]
        rw [Prod.mk.injEq]
        exact ⟨by ring, by ring⟩

/-- C3: for a price list with at least `period + 1` entries, `calculateRSI`
returns `100 - 100/(1 + RS)` where `RS` is the sum of positive changes divided
by the sum of absolute negative changes over the most recent `period`
consecutive price changes; for every shorter list it returns exactly 50. -/
theorem calculateRSI_formula (prices : List ℚ) (period : ℕ) (hp : 0 < period) :
    (period + 1 ≤ prices.length →
      calculateRSI prices period =
        100 - 100 / (1 + gainSum prices period / lossSum prices period)) ∧
    (prices.length < period + 1 → calculateRSI prices period = 50) := by
  constructor
  · intro hlen
    have hn : period ≤ (priceChanges prices).length := by
      rw [length_priceChanges]; omega
    have hq : ((period : ℚ)) ≠ 0 := Nat.cast_ne_zero.mpr hp.ne'
    simp only [calculateRSI, if_neg (by omega : ¬ prices.length < period + 1)]
    rw [rsiLoop_eq_sums prices period hn]
    rcases eq_or_ne (lossSum prices period) 0 with hl | hl
    · simp [hl]
    · congr 1
      rw [div_div_div_cancel_right₀]
      exact hq
  · intro hlen
    simp [calculateRSI, if_pos hlen]

/-- C3 witness: the formula case at the concrete history [1, 3] with period 1. -/
theorem calculateRSI_formula_witness :
    calculateRSI [1, 3] 1 =
      100 - 100 / (1 + gainSum [1, 3] 1 / lossSum [1, 3] 1) :=
  (calculateRSI_formula [1, 3] 1 Nat.one_pos).1 (by decide)

lemma rsiLoop_fst_nonneg (prices : List ℚ) : ∀ k, 0 ≤ (rsiLoop prices k).1 := by
  intro k
  induction k with
  | zero => simp [rsiLoop]
  | succ i ih =>
      simp only [rsiLoop]
      by_cases hc : (0:ℚ) < prices.getD (prices.length - (i + 1)) 0 -
          prices.getD (prices.length - (i + 1) - 1) 0
      · simp only [if_pos hc]
        have := le_of_lt hc
        linarith
      · simp only [if_neg hc]
        exact ih

/-- C9: under the precondition that the most recent `period`-change window has
a strictly negative change (equivalently, accumulated losses are positive),
every divisor of `calculateRSI` is nonzero and the result lies in [0, 100);
without that precondition the divisor `avgLoss` of the division
`avgGain / avgLoss` is zero. -/
theorem calculateRSI_in_range (prices : List ℚ) (period : ℕ) (hp : 0 < period)
    (hlen : period + 1 ≤ prices.length) :
    (0 < (rsiLoop prices period).2 →
      (period : ℚ) ≠ 0 ∧
      (rsiLoop prices period).2 / (period : ℚ) ≠ 0 ∧
      1 + ((rsiLoop prices period).1 / (period : ℚ)) /
          ((rsiLoop prices period).2 / (period : ℚ)) ≠ 0 ∧
      0 ≤ calculateRSI prices period ∧ calculateRSI prices period < 100) ∧
    ((rsiLoop prices period).2 = 0 →
      (rsiLoop prices period).2 / (period : ℚ) = 0) := by
  have hq : (0:ℚ) < (period : ℚ) := by exact_mod_cast hp
  constructor
  · intro hloss
    have hgain : 0 ≤ (rsiLoop prices period).1 := rsiLoop_fst_nonneg prices period
    have havgLoss : 0 < (rsiLoop prices period).2 / (period : ℚ) := div_pos hloss hq
    have havgGain : 0 ≤ (rsiLoop prices period).1 / (period : ℚ) :=
      div_nonneg hgain hq.le
    have hrs : 0 ≤ ((rsiLoop prices period).1 / (period : ℚ)) /
        ((rsiLoop prices period).2 / (period : ℚ)) := div_nonneg havgGain havgLoss.le
    have hone : (0:ℚ) < 1 + ((rsiLoop prices period).1 / (period : ℚ)) /
        ((rsiLoop prices period).2 / (period : ℚ)) := by linarith
    have hdivpos : (0:ℚ) < 100 / (1 + ((rsiLoop prices period).1 / (period : ℚ)) /
        ((rsiLoop prices period).2 / (period : ℚ))) := div_pos (by norm_num) hone
    have hdivle : 100 / (1 + ((rsiLoop prices period).1 / (period : ℚ)) /
        ((rsiLoop prices period).2 / (period : ℚ))) ≤ 100 :=
      div_le_self (by norm_num) (by linarith)
    have hrsi : calculateRSI prices period =
        100 - 100 / (1 + ((rsiLoop prices period).1 / (period : ℚ)) /
          ((rsiLoop prices period).2 / (period : ℚ))) := by
      simp only [calculateRSI, if_neg (by omega : ¬ prices.length < period + 1)]
    refine ⟨hq.ne', havgLoss.ne', hone.ne', ?_, ?_⟩
    · rw [hrsi]; linarith
    · rw [hrsi]; linarith
  · intro hzero
    rw [hzero, zero_div]

/-- C9 witness: the history [3, 1] with period 1 has one strictly negative
change, and its RSI is well defined and lies in [0, 100). -/
theorem calculateRSI_in_range_witness :
    0 ≤ calculateRSI [3, 1] 1 ∧ calculateRSI [3, 1] 1 < 100 := by
  have h := (calculateRSI_in_range [3, 1] 1 Nat.one_pos (by decide)).1
    (by norm_num [rsiLoop, List.getD])
  exact ⟨h.2.2.2.1, h.2.2.2.2⟩

/-! ### EMA (calculateEMA, stock-api.ts) -/

/-- `calculateEMA` (stock-api.ts): for fewer than `period` prices it returns
`prices[prices.length - 1] || 0` (the last price, or 0 for the empty list);
otherwise it seeds with the mean of the first `period` prices and folds the
remaining prices with the EMA update. -/
def calculateEMA (prices : List ℚ) (period : ℕ) : ℚ :=
  if prices.length < period then prices.getLastD 0
  else
    let multiplier := 2 / ((period : ℚ) + 1)
    let seed := (prices.take period).foldl (fun sum price => sum + price) 0 / (period : ℚ)
    (prices.drop period).foldl (fun ema p => p * multiplier + ema * (1 - multiplier)) seed

/-- The claim's description of the EMA: seed with the arithmetic mean of the
first `period` prices, then fold each subsequent price `p` as
`ema' = p * k + ema * (1 - k)` with `k = 2 / (period + 1)`. -/
def emaSpec (prices : List ℚ) (period : ℕ) : ℚ :=
  let k := 2 / ((period : ℚ) + 1)
  let seed := (prices.take period).sum / (((prices.take period).length : ℕ) : ℚ)
  (prices.drop period).foldl (fun ema p => p * k + ema * (1 - k)) seed

lemma foldl_add_eq_sum (l : List ℚ) : ∀ a : ℚ,
    l.foldl (fun sum x => sum + x) a = a + l.sum := by
  induction l with
  | nil => intro a; simp
  | cons x xs ih =>
      intro a
      simp only [List.foldl_cons, List.sum_cons, ih]
      ring

/-- C4: with at least `period` prices, `calculateEMA` computes the claimed
seed-and-fold value; a non-empty shorter history returns its last price, and
the empty history returns 0. -/
theorem calculateEMA_formula (prices : List ℚ) (period : ℕ) :
    (period ≤ prices.length → calculateEMA prices period = emaSpec prices period) ∧
    (prices.length < period → prices ≠ [] →
      calculateEMA prices period = prices.getLastD 0) ∧
    (prices = [] → calculateEMA prices period = 0) := by
  refine ⟨?_, ?_, ?_⟩
  · intro hlen
    have htake : (prices.take period).length = period :=
      by rw [List.length_take]; omega
    simp only [calculateEMA, emaSpec, if_neg (by omega : ¬ prices.length < period)]
    rw [foldl_add_eq_sum, zero_add, htake]
  · intro hlen _
    simp [calculateEMA, if_pos hlen]
  · intro hnil
    subst hnil
    rcases Nat.eq_zero_or_pos period with hz | hpos
    · subst hz
      simp [calculateEMA, emaSpec]
    · simp [calculateEMA, if_pos (by simpa using hpos : ([] : List ℚ).length < period)]

/-- C4 witness: the seed-and-fold case at the concrete history [1, 2, 3] with
period 2. -/
theorem calculateEMA_formula_witness :
    calculateEMA [1, 2, 3] 2 = emaSpec [1, 2, 3] 2 :=
  (calculateEMA_formula [1, 2, 3] 2).1 (by decide)

/-! ### Historical volatility (calculateVolatility, stock-api.ts) -/

/-- The log returns `log(p[i] / p[i-1])` of consecutive prices; `log` stands
for the external `Math.log`. -/
def logReturns (log : ℚ → ℚ) (prices : List ℚ) : List ℚ :=
  List.zipWith (fun a b => log (b / a)) prices prices.tail

/-- `calculateVolatility` (stock-api.ts): population variance of the log
returns, square-rooted and annualized by `sqrt(252) * 100`. `log` and `sqrt`
stand for the external `Math.log` and `Math.sqrt`. The `days` argument is
accepted and ignored, as in the source. -/
def calculateVolatility (log sqrt : ℚ → ℚ) (prices : List ℚ) (days : ℕ) : ℚ :=
  if prices.length < 2 then 0
  else
    let ret := logReturns log prices
    let mean := ret.foldl (fun sum r => sum + r) 0 / (ret.length : ℚ)
    let variance := ret.foldl (fun sum r => sum + (r - mean) ^ 2) 0 / (ret.length : ℚ)
    let dailyVol := sqrt variance
    dailyVol * sqrt 252 * 100

/-- Arithmetic mean of a list (0 for the empty list). -/
def popMean (xs : List ℚ) : ℚ := xs.sum / (xs.length : ℚ)

/-- Population variance of a list. -/
def popVariance (xs : List ℚ) : ℚ :=
  (xs.map (fun x => (x - popMean xs) ^ 2)).sum / (xs.length : ℚ)

/-- Population standard deviation, for a given square-root function. -/
def popStdDev (sqrt : ℚ → ℚ) (xs : List ℚ) : ℚ := sqrt (popVariance xs)

lemma foldl_add_comp_eq_sum_map (f : ℚ → ℚ) (l : List ℚ) : ∀ a : ℚ,
    l.foldl (fun sum x => sum + f x) a = a + (l.map f).sum := by
  induction l with
  | nil => intro a; simp
  | cons x xs ih =>
      intro a
      simp only [List.foldl_cons, List.map_cons, List.sum_cons, ih]
      ring

/-- C5: with at least 2 prices, `calculateVolatility` is the population
standard deviation of the log returns, multiplied by `sqrt(252)` and by 100;
with fewer than 2 prices it is 0. -/
theorem calculateVolatility_formula (log sqrt : ℚ → ℚ) (prices : List ℚ) (days : ℕ) :
    (2 ≤ prices.length →
      calculateVolatility log sqrt prices days =
        popStdDev sqrt (logReturns log prices) * sqrt 252 * 100) ∧
    (prices.length < 2 → calculateVolatility log sqrt prices days = 0) := by
  constructor
  · intro hlen
    simp only [calculateVolatility, if_neg (by omega : ¬ prices.length < 2),
      popStdDev, popVariance, popMean]
    rw [foldl_add_eq_sum, zero_add,
      foldl_add_comp_eq_sum_map (fun r =>
        (r - (logReturns log prices).sum / ((logReturns log prices).length : ℚ)) ^ 2)
        (logReturns log prices) 0, zero_add]
  · intro hlen
    simp [calculateVolatility, if_pos hlen]

/-- C5 witness: the formula case at the concrete history [1, 2] (with the
external log and sqrt instantiated by the identity function). -/
theorem calculateVolatility_formula_witness :
    calculateVolatility id id [1, 2] 0 =
      popStdDev id (logReturns id [1, 2]) * id 252 * 100 :=
  (calculateVolatility_formula id id [1, 2] 0).1 (by decide)

/-! ### VWAP (calculateVWAP, stock-api.ts) -/

/-- The loop of `calculateVWAP`: after `k` iterations (index `i` running from
0 to `k - 1`) it has accumulated `(totalVolume, totalVolumePrice)`, where
iteration `i` adds `volumes[i]` and `typicalPrice[i] * volumes[i]`. The
source's `volumes[i] || 0` out-of-bounds guard is the `getD _ 0` default. -/
def vwapLoop (closes volumes highs lows : List ℚ) : ℕ → ℚ × ℚ
  | 0 => (0, 0)
  | i + 1 =>
      let acc := vwapLoop closes volumes highs lows i
      let typicalPrice := (highs.getD i 0 + lows.getD i 0 + closes.getD i 0) / 3
      let vol := volumes.getD i 0
      (acc.1 + vol, acc.2 + typicalPrice * vol)

/-- `calculateVWAP` (stock-api.ts): volume-weighted typical price; the last
close if the total volume is not positive; 0 for an empty close list. -/
def calculateVWAP (closes volumes highs lows : List ℚ) : ℚ :=
  if closes.length = 0 then 0
  else
    let acc := vwapLoop closes volumes highs lows closes.length
    if 0 < acc.1 then acc.2 / acc.1 else closes.getLastD 0

/-- The claim's numerator terms: `((high[i] + low[i] + close[i]) / 3) *
volume[i]`, one per sample. -/
def vwapNumTerms (closes volumes highs lows : List ℚ) : List ℚ :=
  List.zipWith (fun tp v => tp * v)
    (List.zipWith (fun s c => (s + c) / 3)
      (List.zipWith (fun h l => h + l) highs lows) closes)
    volumes

lemma take_succ_sum (l : List ℚ) (k : ℕ) (hk : k < l.length) :
    (l.take (k + 1)).sum = (l.take k).sum + l.getD k 0 := by
  rw [List.take_succ, List.sum_append, List.getD_eq_getElem _ _ hk,
    List.getElem?_eq_getElem hk]
  simp

lemma length_vwapNumTerms (closes volumes highs lows : List ℚ)
    (hv : volumes.length = closes.length) (hh : highs.length = closes.length)
    (hl : lows.length = closes.length) :
    (vwapNumTerms closes volumes highs lows).length = closes.length := by
  simp [vwapNumTerms, List.length_zipWith, hv, hh, hl]

lemma vwapNumTerms_getD (closes volumes highs lows : List ℚ)
    (hv : volumes.length = closes.length) (hh : highs.length = closes.length)
    (hl : lows.length = closes.length) (k : ℕ) (hk : k < closes.length) :
    (vwapNumTerms closes volumes highs lows).getD k 0 =
      ((highs.getD k 0 + lows.getD k 0 + closes.getD k 0) / 3) * volumes.getD k 0 := by
  have h1 : k < (vwapNumTerms closes volumes highs lows).length := by
    rw [length_vwapNumTerms closes volumes highs lows hv hh hl]; exact hk
  have h2 : k < (List.zipWith (fun s c => (s + c) / 3)
      (List.zipWith (fun h l => h + l) highs lows) closes).length := by
    simp [List.length_zipWith, hh, hl]; omega
  have h3 : k < (List.zipWith (fun h l => h + l) highs lows).length := by
    simp [List.length_zipWith, hh, hl]; omega
  have hkh : k < highs.length := by omega
  have hkl : k < lows.length := by omega
  have hkv : k < volumes.length := by omega
  rw [List.getD_eq_getElem _ _ h1, List.getD_eq_getElem _ _ hkh,
    List.getD_eq_getElem _ _ hkl, List.getD_eq_getElem _ _ hk,
    List.getD_eq_getElem _ _ hkv]
  simp [vwapNumTerms, List.getElem_zipWith]

/-- The VWAP loop accumulates the partial sums of the volumes and of the
claim's numerator terms. -/
lemma vwapLoop_eq_sums (closes volumes highs lows : List ℚ)
    (hv : volumes.length = closes.length) (hh : highs.length = closes.length)
    (hl : lows.length = closes.length) :
    ∀ k, k ≤ closes.length →
      vwapLoop closes volumes highs lows k =
        ((volumes.take k).sum, ((vwapNumTerms closes volumes highs lows).take k).sum) := by
  intro k
  induction k with
  | zero => intro _; simp [vwapLoop]
  | succ i ih =>
      intro h
      have hacc := ih (Nat.le_of_succ_le h)
      have hiv : i < volumes.length := by omega
      have hin : i < (vwapNumTerms closes volumes highs lows).length := by
        rw [length_vwapNumTerms closes volumes highs lows hv hh hl]; omega
      simp only [vwapLoop, hacc]
      rw [take_succ_sum volumes i hiv, take_succ_sum _ i hin,
        vwapNumTerms_getD closes volumes highs lows hv hh hl i (by omega)]

/-- C6: for equal-length sample arrays, `calculateVWAP` returns the sum of
`((high[i] + low[i] + close[i]) / 3) * volume[i]` divided by the total volume
when that total is positive, the last close when the total volume is zero,
and 0 for empty input. -/
theorem calculateVWAP_formula (closes volumes highs lows : List ℚ)
    (hv : volumes.length = closes.length) (hh : highs.length = closes.length)
    (hl : lows.length = closes.length) :
    (0 < volumes.sum →
      calculateVWAP closes volumes highs lows =
        (vwapNumTerms closes volumes highs lows).sum / volumes.sum) ∧
    (volumes.sum = 0 → closes ≠ [] →
      calculateVWAP closes volumes highs lows = closes.getLastD 0) ∧
    (closes = [] → calculateVWAP closes volumes highs lows = 0) := by
  have hloop := vwapLoop_eq_sums closes volumes highs lows hv hh hl
    closes.length le_rfl
  have htv : (volumes.take closes.length).sum = volumes.sum := by
    rw [List.take_of_length_le (by omega)]
  have htn : ((vwapNumTerms closes volumes highs lows).take closes.length).sum =
      (vwapNumTerms closes volumes highs lows).sum := by
    rw [List.take_of_length_le
      (by rw [length_vwapNumTerms closes volumes highs lows hv hh hl])]
  refine ⟨?_, ?_, ?_⟩
  · intro hpos
    have hne : closes.length ≠ 0 := by
      intro h0
      have : volumes = [] := List.eq_nil_of_length_eq_zero (by omega)
      rw [this] at hpos
      simp at hpos
    simp only [calculateVWAP, if_neg hne, hloop, htv, htn, if_pos hpos]
  · intro hzero hne
    have hne' : closes.length ≠ 0 := by
      intro h0; exact hne (List.eq_nil_of_length_eq_zero h0)
    simp only [calculateVWAP, if_neg hne', hloop, htv, htn, hzero]
    norm_num
  · intro hnil
    subst hnil
    simp [calculateVWAP]

/-- C6 witness: concrete two-sample data with positive total volume. -/
theorem calculateVWAP_formula_witness :
    calculateVWAP [10, 20] [1, 3] [11, 21] [9, 19] =
      (vwapNumTerms [10, 20] [1, 3] [11, 21] [9, 19]).sum / ([1, 3] : List ℚ).sum :=
  (calculateVWAP_formula [10, 20] [1, 3] [11, 21] [9, 19]
    (by decide) (by decide) (by decide)).1 (by norm_num)

/-! ### Recommendation engine (stock-api.ts) -/

/-- JavaScript `Math.round`: round half toward positive infinity. -/
def jsRound (q : ℚ) : ℤ := ⌊q + 0.5⌋

/-- The `OptionContract` interface of stock-api.ts. -/
structure OptionContract where
  strike : ℚ
  bid : ℚ
  ask : ℚ
  last : ℚ
  volume : ℚ
  openInterest : ℚ
  impliedVolatility : ℚ
  delta : ℚ
  gamma : ℚ
  theta : ℚ
  vega : ℚ
  rho : ℚ
deriving DecidableEq

/-- The `OptionsChain` interface of stock-api.ts. -/
structure OptionsChain where
  expiration : String
  calls : List OptionContract
  puts : List OptionContract
deriving DecidableEq

/-- The `TermStructurePoint` interface of stock-api.ts. -/
structure TermStructurePoint where
  expiration : String
  daysToExpiry : ℚ
  impliedVolatility : ℚ
deriving DecidableEq

/-- The `OptionsData` interface of stock-api.ts. -/
structure OptionsData where
  symbol : String
  expirationDates : List String
  chains : List OptionsChain
  impliedVolatility : ℚ
  ivRank : ℚ
  ivPercentile : ℚ
  skew : ℚ
  termStructure : List TermStructurePoint
deriving DecidableEq

/-- The `FundamentalData` interface of stock-api.ts (`peRatio` and `pegRatio`
embedded as `peRatioVal` and `pegRatioVal`). -/
structure FundamentalData where
  eps : ℚ
  revenue : ℚ
  netIncome : ℚ
  ebitda : ℚ
  peRatioVal : ℚ
  priceToSales : ℚ
  grossMargin : ℚ
  operatingMargin : ℚ
  freeCashFlowYield : ℚ
  pegRatioVal : ℚ
  forwardPE : ℚ
deriving DecidableEq

/-- The `AlternativeData` interface of stock-api.ts. -/
structure AlternativeData where
  socialSentiment : ℚ
  newsScore : ℚ
  googleTrends : ℚ
  analystRating : ℚ
  targetPrice : ℚ
  upgrades : ℚ
  downgrades : ℚ
deriving DecidableEq

/-- The `TradeRecommendation` interface of stock-api.ts (`creditRatio`
embedded as `creditRatioVal`). -/
structure TradeRecommendation where
  ticker : String
  strategy : String
  legs : String
  thesis : String
  pop : ℚ
  maxLoss : ℚ
  creditRatioVal : ℚ
  modelScore : ℚ
  sector : String
deriving DecidableEq

/-- The Bull Call Spread template pushed by `generateTradeRecommendations`. -/
def bullCallSpreadRec (symbol : String) (currentPrice : ℚ) : TradeRecommendation :=
  let strike1 := jsRound currentPrice
  let strike2 := jsRound (currentPrice * 1.05)
  { ticker := symbol
    strategy := "Bull Call Spread"
    legs := "Buy " ++ toString strike1 ++ "C / Sell " ++ toString strike2 ++ "C (30 DTE)"
    thesis := "Strong momentum, positive sentiment, RSI not overbought"
    pop := 0.72
    maxLoss := 250
    creditRatioVal := 0.4
    modelScore := 0.85
    sector := "Technology" }

/-- The Cash Secured Put template pushed by `generateTradeRecommendations`. -/
def cashSecuredPutRec (symbol : String) (currentPrice : ℚ) : TradeRecommendation :=
  let strike := jsRound (currentPrice * 0.95)
  { ticker := symbol
    strategy := "Cash Secured Put"
    legs := "Sell " ++ toString strike ++ "P (45 DTE)"
    thesis := "High IV, strong support level, analyst upgrades"
    pop := 0.68
    maxLoss := 480
    creditRatioVal := 0.35
    modelScore := 0.78
    sector := "Technology" }

/-- The Iron Condor template pushed by `generateTradeRecommendations`. -/
def ironCondorRec (symbol : String) (currentPrice : ℚ) : TradeRecommendation :=
  let strike1 := jsRound (currentPrice * 0.95)
  let strike2 := jsRound (currentPrice * 0.98)
  let strike3 := jsRound (currentPrice * 1.02)
  let strike4 := jsRound (currentPrice * 1.05)
  { ticker := symbol
    strategy := "Iron Condor"
    legs := "Sell " ++ toString strike2 ++ "P/" ++ toString strike3 ++ "C, Buy " ++
      toString strike1 ++ "P/" ++ toString strike4 ++ "C (30 DTE)"
    thesis := "Low volatility environment, range-bound price action"
    pop := 0.65
    maxLoss := 350
    creditRatioVal := 0.42
    modelScore := 0.71
    sector := "Technology" }

/-- `generateTradeRecommendations` (stock-api.ts): pushes each template when
its threshold condition holds, then returns at most 5 trades
(`trades.slice(0, 5)`). -/
def generateTradeRecommendations (symbol : String) (stockData : StockData)
    (optionsData : OptionsData) (fundamentalData : FundamentalData)
    (alternativeData : AlternativeData) (technicalData : TechnicalIndicators) :
    List TradeRecommendation :=
  let currentPrice := stockData.price
  let trades :=
    (if technicalData.rsi < 70 ∧ 0 < alternativeData.socialSentiment ∧
        0 < stockData.changePercent then
      [bullCallSpreadRec symbol currentPrice] else []) ++
    (if 30 < technicalData.rsi ∧ 50 < optionsData.ivPercentile ∧
        3 < alternativeData.analystRating then
      [cashSecuredPutRec symbol currentPrice] else []) ++
    (if technicalData.adx < 25 ∧ 60 < optionsData.ivPercentile then
      [ironCondorRec symbol currentPrice] else [])
  trades.take 5

lemma mem_ite_singleton {α : Type} (t x : α) (c : Prop) [Decidable c] :
    (t ∈ if c then [x] else []) ↔ c ∧ t = x := by
  by_cases h : c <;> simp [h]

lemma sublist_ite_singleton {α : Type} (x : α) (c : Prop) [Decidable c] :
    (if c then [x] else []).Sublist [x] := by
  by_cases h : c <;> simp [h]

lemma bullCallSpreadRec_ne_cashSecuredPutRec (s : String) (p : ℚ) :
    bullCallSpreadRec s p ≠ cashSecuredPutRec s p := by
  intro h
  have hs := congrArg TradeRecommendation.strategy h
  simp only [bullCallSpreadRec, cashSecuredPutRec] at hs
  exact absurd hs (by decide)

lemma bullCallSpreadRec_ne_ironCondorRec (s : String) (p : ℚ) :
    bullCallSpreadRec s p ≠ ironCondorRec s p := by
  intro h
  have hs := congrArg TradeRecommendation.strategy h
  simp only [bullCallSpreadRec, ironCondorRec] at hs
  exact absurd hs (by decide)

lemma cashSecuredPutRec_ne_ironCondorRec (s : String) (p : ℚ) :
    cashSecuredPutRec s p ≠ ironCondorRec s p := by
  intro h
  have hs := congrArg TradeRecommendation.strategy h
  simp only [cashSecuredPutRec, ironCondorRec] at hs
  exact absurd hs (by decide)

/-- C7: `generateTradeRecommendations` returns at most 5 trades, drawn from
the fixed three-template catalog in its fixed order (a sublist of
[Bull Call Spread, Cash Secured Put, Iron Condor]), and each template is in
the output exactly when its threshold condition holds; the hardcoded pop,
maxLoss, creditRatio and modelScore numbers are those of the template
definitions. -/
theorem generateTradeRecommendations_catalog (symbol : String)
    (stockData : StockData) (optionsData : OptionsData)
    (fundamentalData : FundamentalData) (alternativeData : AlternativeData)
    (technicalData : TechnicalIndicators) :
    (generateTradeRecommendations symbol stockData optionsData fundamentalData
        alternativeData technicalData).length ≤ 5 ∧
    (generateTradeRecommendations symbol stockData optionsData fundamentalData
        alternativeData technicalData).Sublist
      [bullCallSpreadRec symbol stockData.price,
       cashSecuredPutRec symbol stockData.price,
       ironCondorRec symbol stockData.price] ∧
    (bullCallSpreadRec symbol stockData.price ∈
        generateTradeRecommendations symbol stockData optionsData fundamentalData
          alternativeData technicalData ↔
      technicalData.rsi < 70 ∧ 0 < alternativeData.socialSentiment ∧
        0 < stockData.changePercent) ∧
    (cashSecuredPutRec symbol stockData.price ∈
        generateTradeRecommendations symbol stockData optionsData fundamentalData
          alternativeData technicalData ↔
      30 < technicalData.rsi ∧ 50 < optionsData.ivPercentile ∧
        3 < alternativeData.analystRating) ∧
    (ironCondorRec symbol stockData.price ∈
        generateTradeRecommendations symbol stockData optionsData fundamentalData
          alternativeData technicalData ↔
      technicalData.adx < 25 ∧ 60 < optionsData.ivPercentile) := by
  have hb_ne_c := bullCallSpreadRec_ne_cashSecuredPutRec symbol stockData.price
  have hb_ne_i := bullCallSpreadRec_ne_ironCondorRec symbol stockData.price
  have hc_ne_i := cashSecuredPutRec_ne_ironCondorRec symbol stockData.price
  have hlist : generateTradeRecommendations symbol stockData optionsData
      fundamentalData alternativeData technicalData =
        (if technicalData.rsi < 70 ∧ 0 < alternativeData.socialSentiment ∧
            0 < stockData.changePercent then
          [bullCallSpreadRec symbol stockData.price] else []) ++
        (if 30 < technicalData.rsi ∧ 50 < optionsData.ivPercentile ∧
            3 < alternativeData.analystRating then
          [cashSecuredPutRec symbol stockData.price] else []) ++
        (if technicalData.adx < 25 ∧ 60 < optionsData.ivPercentile then
          [ironCondorRec symbol stockData.price] else []) := by
    simp only [generateTradeRecommendations]
    rw [List.take_of_length_le]
    by_cases h1 : technicalData.rsi < 70 ∧ 0 < alternativeData.socialSentiment ∧
        0 < stockData.changePercent <;>
      by_cases h2 : 30 < technicalData.rsi ∧ 50 < optionsData.ivPercentile ∧
        3 < alternativeData.analystRating <;>
      by_cases h3 : technicalData.adx < 25 ∧ 60 < optionsData.ivPercentile <;>
      simp [h1, h2, h3]
  rw [hlist]
  refine ⟨?_, ?_, ?_, ?_, ?_⟩
  · by_cases h1 : technicalData.rsi < 70 ∧ 0 < alternativeData.socialSentiment ∧
        0 < stockData.changePercent <;>
      by_cases h2 : 30 < technicalData.rsi ∧ 50 < optionsData.ivPercentile ∧
        3 < alternativeData.analystRating <;>
      by_cases h3 : technicalData.adx < 25 ∧ 60 < optionsData.ivPercentile <;>
      simp [h1, h2, h3]
  · have hs12 := List.Sublist.append
      (sublist_ite_singleton (bullCallSpreadRec symbol stockData.price)
        (technicalData.rsi < 70 ∧ 0 < alternativeData.socialSentiment ∧
          0 < stockData.changePercent))
      (sublist_ite_singleton (cashSecuredPutRec symbol stockData.price)
        (30 < technicalData.rsi ∧ 50 < optionsData.ivPercentile ∧
          3 < alternativeData.analystRating))
    exact List.Sublist.append hs12
      (sublist_ite_singleton (ironCondorRec symbol stockData.price)
        (technicalData.adx < 25 ∧ 60 < optionsData.ivPercentile))
  · simp only [List.mem_append, mem_ite_singleton]
    simp [hb_ne_c, hb_ne_i]
  · have hc_ne_b : cashSecuredPutRec symbol stockData.price ≠
        bullCallSpreadRec symbol stockData.price := fun h => hb_ne_c h.symm
    simp only [List.mem_append, mem_ite_singleton]
    simp [hc_ne_b, hc_ne_i]
  · have hi_ne_b : ironCondorRec symbol stockData.price ≠
        bullCallSpreadRec symbol stockData.price := fun h => hb_ne_i h.symm
    have hi_ne_c : ironCondorRec symbol stockData.price ≠
        cashSecuredPutRec symbol stockData.price := fun h => hc_ne_i h.symm
    simp only [List.mem_append, mem_ite_singleton]
    simp [hi_ne_b, hi_ne_c]

/-- C8: `generateTradeRecommendations` draws no randomness: two calls with
equal symbol, stock, options, fundamental, alternative and technical data
return equal recommendation lists. -/
theorem generateTradeRecommendations_deterministic
    (s₁ s₂ : String) (d₁ d₂ : StockData) (o₁ o₂ : OptionsData)
    (f₁ f₂ : FundamentalData) (a₁ a₂ : AlternativeData)
    (t₁ t₂ : TechnicalIndicators)
    (hs : s₁ = s₂) (hd : d₁ = d₂) (ho : o₁ = o₂) (hf : f₁ = f₂)
    (ha : a₁ = a₂) (ht : t₁ = t₂) :
    generateTradeRecommendations s₁ d₁ o₁ f₁ a₁ t₁ =
      generateTradeRecommendations s₂ d₂ o₂ f₂ a₂ t₂ := by
  rw [hs, hd, ho, hf, ha, ht]

/-- A concrete stock quote, for spot-checking the recommendation engine. -/
def sampleStockData : StockData :=
  { symbol := "AAPL", price := 100, change := 1, changePercent := 1,
    volume := 1000, marketCap := none, high := 101, low := 99,
    openPrice := 100, previousClose := 99, vwap := none, timestamp := 0 }

/-- A concrete options snapshot, for spot-checking the recommendation engine. -/
def sampleOptionsData : OptionsData :=
  { symbol := "AAPL", expirationDates := [], chains := [],
    impliedVolatility := 0.3, ivRank := 50, ivPercentile := 55, skew := 0,
    termStructure := [] }

/-- Concrete fundamentals, for spot-checking the recommendation engine. -/
def sampleFundamentalData : FundamentalData :=
  { eps := 5, revenue := 0, netIncome := 0, ebitda := 0, peRatioVal := 20,
    priceToSales := 5, grossMargin := 0.5, operatingMargin := 0.2,
    freeCashFlowYield := 0.05, pegRatioVal := 1, forwardPE := 18 }

/-- Concrete alternative data, for spot-checking the recommendation engine. -/
def sampleAlternativeData : AlternativeData :=
  { socialSentiment := 0.5, newsScore := 0.5, googleTrends := 50,
    analystRating := 4, targetPrice := 0, upgrades := 1, downgrades := 0 }

/-- Concrete indicators, for spot-checking the recommendation engine. -/
def sampleTechnicalIndicators : TechnicalIndicators :=
  { rsi := 50, ema9 := 100, ema20 := 100, adx := 20, vwap := 100,
    sma50 := 100, sma200 := 100 }

/-- C8 witness: determinism at a concrete input. -/
theorem generateTradeRecommendations_deterministic_witness :
    generateTradeRecommendations "AAPL" sampleStockData sampleOptionsData
        sampleFundamentalData sampleAlternativeData sampleTechnicalIndicators =
      generateTradeRecommendations "AAPL" sampleStockData sampleOptionsData
        sampleFundamentalData sampleAlternativeData sampleTechnicalIndicators :=
  generateTradeRecommendations_deterministic "AAPL" "AAPL"
    sampleStockData sampleStockData sampleOptionsData sampleOptionsData
    sampleFundamentalData sampleFundamentalData
    sampleAlternativeData sampleAlternativeData
    sampleTechnicalIndicators sampleTechnicalIndicators
    rfl rfl rfl rfl rfl rfl

/-! ### Option recommendations (generateOptionRecommendations, stock-api.ts) -/

/-- The timeframe record shape shared by `timeframes` (volatilities) and
`averageMoves` in `HistoricalVolatilityData`. -/
structure Timeframes where
  oneDay : ℚ
  oneWeek : ℚ
  oneMonth : ℚ
  threeMonths : ℚ
  sixMonths : ℚ
deriving DecidableEq

/-- The `OptionTradeRecommendation` interface of stock-api.ts; the string
literal union types of `riskLevel` and `profitPotential` are embedded as
strings. -/
structure OptionTradeRecommendation where
  strategy : String
  description : String
  reasoning : String
  expectedMove : ℚ
  timeframe : String
  riskLevel : String
  profitPotential : String
deriving DecidableEq

/-- The Short Straddle template (high one-month volatility); `fmt` stands for
the external `Number.prototype.toFixed`. -/
def shortStraddleOptRec (fmt : ℚ → ℕ → String)
    (volatilities averageMoves : Timeframes) : OptionTradeRecommendation :=
  { strategy := "Short Straddle"
    description := "Sell ATM call and put (30-45 DTE)"
    reasoning := "High implied volatility (" ++ fmt volatilities.oneMonth 1 ++
      "%) suggests premium is expensive. Profit from volatility contraction."
    expectedMove := averageMoves.oneMonth
    timeframe := "30-45 days"
    riskLevel := "High"
    profitPotential := "High" }

/-- The Iron Condor template (high one-month volatility). -/
def ironCondorOptRec (fmt : ℚ → ℕ → String) (averageMoves : Timeframes)
    (currentPrice : ℚ) : OptionTradeRecommendation :=
  { strategy := "Iron Condor"
    description := "Sell " ++ fmt (currentPrice * 0.97) 0 ++ "/" ++
      fmt (currentPrice * 1.03) 0 ++ " strikes"
    reasoning := "High IV environment favors premium selling with defined risk."
    expectedMove := averageMoves.oneMonth
    timeframe := "30-45 days"
    riskLevel := "Medium"
    profitPotential := "Medium" }

/-- The Long Straddle template (low one-month volatility). -/
def longStraddleOptRec (fmt : ℚ → ℕ → String)
    (volatilities averageMoves : Timeframes) : OptionTradeRecommendation :=
  { strategy := "Long Straddle"
    description := "Buy ATM call and put (30-45 DTE)"
    reasoning := "Low implied volatility (" ++ fmt volatilities.oneMonth 1 ++
      "%) suggests options are cheap. Profit from volatility expansion."
    expectedMove := averageMoves.oneMonth
    timeframe := "30-45 days"
    riskLevel := "Medium"
    profitPotential := "High" }

/-- The Calendar Spread template (recent volatility spike). -/
def calendarSpreadOptRec (averageMoves : Timeframes) : OptionTradeRecommendation :=
  { strategy := "Calendar Spread"
    description := "Sell short-term, buy long-term options"
    reasoning := "Recent volatility spike suggests short-term premium is elevated."
    expectedMove := averageMoves.oneWeek
    timeframe := "2-4 weeks"
    riskLevel := "Low"
    profitPotential := "Medium" }

/-- The Cash-Secured Put template, pushed unconditionally. -/
def cashSecuredPutOptRec (fmt : ℚ → ℕ → String) (averageMoves : Timeframes)
    (currentPrice : ℚ) : OptionTradeRecommendation :=
  { strategy := "Cash-Secured Put"
    description := "Sell " ++ fmt (currentPrice * 0.95) 0 ++ " put (30-45 DTE)"
    reasoning := "Collect premium while potentially acquiring shares at " ++
      fmt ((currentPrice * 0.95 / currentPrice) * 100 - 100) 1 ++ "% discount."
    expectedMove := averageMoves.oneMonth
    timeframe := "30-45 days"
    riskLevel := "Low"
    profitPotential := "Low" }

/-- The pushes of `generateOptionRecommendations` before the final
`slice(0, 5)`: two templates under high one-month volatility, one under low
one-month volatility, one on a short-term volatility spike, and the
Cash-Secured Put unconditionally. -/
def generateOptionRecommendationsList (fmt : ℚ → ℕ → String)
    (volatilities averageMoves : Timeframes) (currentPrice : ℚ) :
    List OptionTradeRecommendation :=
  (if 30 < volatilities.oneMonth then
    [shortStraddleOptRec fmt volatilities averageMoves,
     ironCondorOptRec fmt averageMoves currentPrice] else []) ++
  (if volatilities.oneMonth < 20 then
    [longStraddleOptRec fmt volatilities averageMoves] else []) ++
  (if volatilities.threeMonths * 1.2 < volatilities.oneWeek then
    [calendarSpreadOptRec averageMoves] else []) ++
  [cashSecuredPutOptRec fmt averageMoves currentPrice]

/-- `generateOptionRecommendations` (stock-api.ts): the pushed templates,
cut to at most 5 by `recommendations.slice(0, 5)`. -/
def generateOptionRecommendations (fmt : ℚ → ℕ → String)
    (volatilities averageMoves : Timeframes) (currentPrice : ℚ) :
    List OptionTradeRecommendation :=
  (generateOptionRecommendationsList fmt volatilities averageMoves currentPrice).take 5

/-- C10: `generateOptionRecommendations` returns between 1 and 5
recommendations and always contains the Cash-Secured Put template: at most 4
templates are pushed before the slice-to-5 (the `oneMonth > 30` pair and the
`oneMonth < 20` template are mutually exclusive), so the slice cuts nothing
and the unconditionally pushed Cash-Secured Put stays last. -/
theorem generateOptionRecommendations_contains_csp (fmt : ℚ → ℕ → String)
    (volatilities averageMoves : Timeframes) (currentPrice : ℚ) :
    generateOptionRecommendations fmt volatilities averageMoves currentPrice =
      generateOptionRecommendationsList fmt volatilities averageMoves currentPrice ∧
    (generateOptionRecommendationsList fmt volatilities averageMoves
        currentPrice).length ≤ 4 ∧
    1 ≤ (generateOptionRecommendations fmt volatilities averageMoves
        currentPrice).length ∧
    (generateOptionRecommendations fmt volatilities averageMoves
        currentPrice).length ≤ 5 ∧
    (generateOptionRecommendations fmt volatilities averageMoves
        currentPrice).getLast? =
      some (cashSecuredPutOptRec fmt averageMoves currentPrice) := by
  have hlen : (generateOptionRecommendationsList fmt volatilities averageMoves
      currentPrice).length ≤ 4 := by
    by_cases hA : 30 < volatilities.oneMonth <;>
      by_cases hB : volatilities.oneMonth < 20 <;>
      by_cases hC : volatilities.threeMonths * 1.2 < volatilities.oneWeek <;>
      simp [generateOptionRecommendationsList, hA, hB, hC] <;> linarith
  have heq : generateOptionRecommendations fmt volatilities averageMoves
      currentPrice =
        generateOptionRecommendationsList fmt volatilities averageMoves
          currentPrice :=
    List.take_of_length_le (le_trans hlen (by norm_num))
  have hlast : (generateOptionRecommendationsList fmt volatilities averageMoves
      currentPrice).getLast? =
        some (cashSecuredPutOptRec fmt averageMoves currentPrice) := by
    simp only [generateOptionRecommendationsList, ← List.append_assoc]
    rw [List.getLast?_concat]
  have hpos : 1 ≤ (generateOptionRecommendationsList fmt volatilities
      averageMoves currentPrice).length := by
    simp only [generateOptionRecommendationsList, List.length_append,
      List.length_singleton]
    omega
  refine ⟨heq, hlen, ?_, ?_, ?_⟩
  · rw [heq]; exact hpos
  · rw [heq]; exact le_trans hlen (by norm_num)
  · rw [heq]; exact hlast
